import Mathlib

/-!
Verification of the LinkPlace points-ledger core.

The development embeds two parts of the repository:

* `LinkPlace` — the phase-1.5 in-memory points API
  (`app/api/v1/endpoints/points.py`): a dictionary of per-user balance
  aggregates (`fake_points_db`) and a dictionary of point transactions
  (`fake_transactions_db`), mutated by the endpoint handlers
  `earn_points`, `use_points`, `approve_transaction`, `reject_transaction`
  and `get_point_balance`.

* `Phase1` — the phase-1 SQLAlchemy model
  (`app/models/point_transaction.py`): the `PointTransaction` entity with
  its factories `create_earning_transaction` / `create_spending_transaction`
  and the lifecycle methods `reverse`, `set_expiry`, `is_expiring_soon`.

Python dictionaries keyed by e-mail are embedded as functions
`String → Option Balance` (the handlers only get/set them by key); the
transaction dictionary, whose key set is enumerated to compute fresh ids
(`max(keys) + 1`), is embedded as an association list `List (Nat × Txn15)`.
Timestamp strings (`created_at`, `last_updated`, `expires_at` in phase 1.5)
are not referenced by any verified property and are omitted from the
records; every other field of the Python dictionaries is carried.
-/

namespace LinkPlace

/-- A per-user balance aggregate: one value of `fake_points_db`
(the `last_updated` timestamp string is omitted). -/
structure Balance where
  user_email : String
  total_points : Int
  available_points : Int
  pending_points : Int
  used_points : Int
  expired_points : Int
deriving DecidableEq, Repr

/-- A point transaction: one value of `fake_transactions_db`
(the `expires_at` and `created_at` timestamp strings are omitted).
`related_transaction_id` is `none` for every transaction the phase-1.5
handlers create; it is set only by the reversal operation, which is
modelled from the phase-1 `PointTransaction.reverse` method. -/
structure Txn15 where
  id : Nat
  user_email : String
  transaction_type : String
  points : Int
  source : String
  source_id : Int
  description : String
  status : String
  related_transaction_id : Option Nat
deriving DecidableEq, Repr

/-- The request body `PointCreate` (`app/schemas/points.py`): `points` is a
plain `int` with no positivity constraint. -/
structure PointCreate where
  points : Int
  source : String
  source_id : Int
  description : Option String
deriving DecidableEq, Repr

/-- The error responses the handlers raise (`HTTPException` detail strings
"Insufficient points", "Transaction not found", "Transaction is not pending"). -/
inductive Err where
  | insufficientPoints
  | transactionNotFound
  | transactionNotPending
deriving DecidableEq, Repr

/-- The module-level mutable state: `fake_points_db` and
`fake_transactions_db`. -/
structure State where
  points_db : String → Option Balance
  transactions_db : List (Nat × Txn15)

/-- The zero balance record created for a user not yet in `fake_points_db`. -/
def zeroBalance (u : String) : Balance :=
  { user_email := u, total_points := 0, available_points := 0,
    pending_points := 0, used_points := 0, expired_points := 0 }

/-- Store a balance under a key (`fake_points_db[u] = b`). -/
def setBal (u : String) (b : Balance) (f : String → Option Balance) :
    String → Option Balance :=
  fun v => if v = u then some b else f v

/-- `fake_transactions_db.get(k)`. -/
def findTx (k : Nat) : List (Nat × Txn15) → Option Txn15
  | [] => none
  | (k', t) :: db => if k' = k then some t else findTx k db

/-- In-place mutation of the transaction stored under key `k`. -/
def updateTx (k : Nat) (t' : Txn15) (db : List (Nat × Txn15)) :
    List (Nat × Txn15) :=
  db.map (fun p => if p.1 = k then (p.1, t') else p)

/-- `max(fake_transactions_db.keys())` (0 on the empty dictionary,
which the caller guards against). -/
def maxKey (db : List (Nat × Txn15)) : Nat :=
  db.foldr (fun p m => Nat.max p.1 m) 0

/-- `max(fake_transactions_db.keys()) + 1 if fake_transactions_db else 1`. -/
def newId (db : List (Nat × Txn15)) : Nat :=
  if db.isEmpty then 1 else maxKey db + 1

/-- The user's available points as `get_point_balance` would report them:
the stored aggregate's field, or 0 for a user with no record yet. -/
def availOf (s : State) (u : String) : Int :=
  match s.points_db u with
  | some b => b.available_points
  | none => 0

/-- The user's pending points (0 for a user with no record yet). -/
def pendingOf (s : State) (u : String) : Int :=
  match s.points_db u with
  | some b => b.pending_points
  | none => 0

/-- The user's total points (0 for a user with no record yet). -/
def totalOf (s : State) (u : String) : Int :=
  match s.points_db u with
  | some b => b.total_points
  | none => 0

/-- `GET /balance` (`get_point_balance`): returns the stored aggregate, or
lazily creates, stores and returns a zero aggregate for a new user. -/
def get_point_balance (u : String) (s : State) : State × Balance :=
  match s.points_db u with
  | some b => (s, b)
  | none =>
      ({ s with points_db := setBal u (zeroBalance u) s.points_db },
       zeroBalance u)

/-- `POST /earn` (`earn_points`): unconditionally creates a `pending`
`"earned"` transaction under a fresh id, lazily creates the balance
aggregate if missing, and adds the requested points to `pending_points`.
Returns the new transaction id. -/
def earn_points (pd : PointCreate) (u : String) (s : State) :
    State × Except Err Nat :=
  let nid := newId s.transactions_db
  let t : Txn15 :=
    { id := nid, user_email := u, transaction_type := "earned",
      points := pd.points, source := pd.source, source_id := pd.source_id,
      description := pd.description.getD (pd.source ++ "로 포인트 적립"),
      status := "pending", related_transaction_id := none }
  let b := (s.points_db u).getD (zeroBalance u)
  let b' := { b with pending_points := b.pending_points + pd.points }
  ({ points_db := setBal u b' s.points_db,
     transactions_db := (nid, t) :: s.transactions_db },
   .ok nid)

/-- `POST /use` (`use_points`): fails with "Insufficient points" when the
user has no balance record or `available_points < points`; otherwise
creates a `completed` `"used"` transaction with negated points and
updates `available_points` and `used_points`.  Every check precedes every
mutation in the handler, so the error branches return the state intact. -/
def use_points (pd : PointCreate) (u : String) (s : State) :
    State × Except Err Nat :=
  match s.points_db u with
  | none => (s, .error .insufficientPoints)
  | some b =>
      if b.available_points < pd.points then
        (s, .error .insufficientPoints)
      else
        let nid := newId s.transactions_db
        let t : Txn15 :=
          { id := nid, user_email := u, transaction_type := "used",
            points := -pd.points, source := pd.source,
            source_id := pd.source_id,
            description := pd.description.getD (pd.source ++ "로 포인트 사용"),
            status := "completed", related_transaction_id := none }
        let b' := { b with
                    available_points := b.available_points - pd.points,
                    used_points := b.used_points + pd.points }
        ({ points_db := setBal u b' s.points_db,
           transactions_db := (nid, t) :: s.transactions_db },
         .ok nid)

/-- `POST /approve/{id}` (`approve_transaction`): 404 when the id is absent,
400 when the stored transaction is not `pending`; otherwise sets the status
to `completed` and, for an `"earned"` transaction whose user has a balance
record, posts the points to `available_points` and `total_points` and
withdraws them from `pending_points`. -/
def approve_transaction (k : Nat) (s : State) : State × Except Err Unit :=
  match findTx k s.transactions_db with
  | none => (s, .error .transactionNotFound)
  | some t =>
      if t.status ≠ "pending" then
        (s, .error .transactionNotPending)
      else
        let db' := updateTx k { t with status := "completed" } s.transactions_db
        if t.transaction_type = "earned" then
          match s.points_db t.user_email with
          | some b =>
              let b' := { b with
                          available_points := b.available_points + t.points,
                          pending_points := b.pending_points - t.points,
                          total_points := b.total_points + t.points }
              ({ points_db := setBal t.user_email b' s.points_db,
                 transactions_db := db' }, .ok ())
          | none => ({ s with transactions_db := db' }, .ok ())
        else ({ s with transactions_db := db' }, .ok ())

/-- `POST /reject/{id}` (`reject_transaction`): 404 when the id is absent,
400 when the stored transaction is not `pending`; otherwise sets the status
to `failed`, appends the reason to the description and, for an `"earned"`
transaction whose user has a balance record, withdraws the points from
`pending_points` (available and total are untouched). -/
def reject_transaction (k : Nat) (reason : String) (s : State) :
    State × Except Err Unit :=
  match findTx k s.transactions_db with
  | none => (s, .error .transactionNotFound)
  | some t =>
      if t.status ≠ "pending" then
        (s, .error .transactionNotPending)
      else
        let t' := { t with
                    status := "failed",
                    description := t.description ++ " (거부 사유: " ++ reason ++ ")" }
        let db' := updateTx k t' s.transactions_db
        if t.transaction_type = "earned" then
          match s.points_db t.user_email with
          | some b =>
              let b' := { b with pending_points := b.pending_points - t.points }
              ({ points_db := setBal t.user_email b' s.points_db,
                 transactions_db := db' }, .ok ())
          | none => ({ s with transactions_db := db' }, .ok ())
        else ({ s with transactions_db := db' }, .ok ())

/-- The reversal operation, modelled from the phase-1
`PointTransaction.reverse` method (the only reversal implementation in the
repository; phase 1.5 exposes no reverse endpoint) grafted onto the
phase-1.5 store: it sets the original transaction's status to `reversed`
and records a new `completed` `adjusted` transaction with the negated
points, linked through `related_transaction_id`.  Faithful to the source,
it checks no status and performs no balance mutation (the new entry's
snapshot balances are placeholders "set by the service", which does not
exist in the repository).  The fresh id stands for the database-assigned
primary key. -/
def reverse_points (k : Nat) (_adminId : Nat) (reason : Option String)
    (s : State) : State × Except Err Nat :=
  match findTx k s.transactions_db with
  | none => (s, .error .transactionNotFound)
  | some t =>
      let nid := newId s.transactions_db
      let rt : Txn15 :=
        { id := nid, user_email := t.user_email,
          transaction_type := "adjusted", points := -t.points,
          source := "admin", source_id := 0,
          description := "Reversal of transaction #" ++ toString t.id ++ ": "
            ++ reason.getD "Administrative reversal",
          status := "completed", related_transaction_id := some k }
      let db' := (nid, rt) :: updateTx k { t with status := "reversed" } s.transactions_db
      ({ s with transactions_db := db' }, .ok nid)

/-- The transactions prepopulated in `fake_transactions_db`. -/
def initTx1 : Txn15 :=
  { id := 1, user_email := "admin@linkplace.com", transaction_type := "earned",
    points := 500, source := "review_write", source_id := 1,
    description := "리뷰 작성으로 포인트 적립", status := "completed",
    related_transaction_id := none }

def initTx2 : Txn15 :=
  { id := 2, user_email := "admin@linkplace.com", transaction_type := "used",
    points := -200, source := "coupon_purchase", source_id := 10,
    description := "쿠폰 구매로 포인트 사용", status := "completed",
    related_transaction_id := none }

def initTx3 : Txn15 :=
  { id := 3, user_email := "user1@example.com", transaction_type := "earned",
    points := 300, source := "campaign_participate", source_id := 5,
    description := "캠페인 참여로 포인트 적립", status := "pending",
    related_transaction_id := none }

/-- The module-level initial state: the prepopulated `fake_points_db`
and `fake_transactions_db`. -/
def initState : State :=
  { points_db := fun u =>
      if u = "admin@linkplace.com" then
        some { user_email := "admin@linkplace.com", total_points := 1500,
               available_points := 1200, pending_points := 300,
               used_points := 800, expired_points := 0 }
      else if u = "user1@example.com" then
        some { user_email := "user1@example.com", total_points := 850,
               available_points := 650, pending_points := 200,
               used_points := 350, expired_points := 50 }
      else none,
    transactions_db := [(1, initTx1), (2, initTx2), (3, initTx3)] }

/-- One inbound call to a state-mutating points operation.  Expiration is
absent: the repository exposes only a read-only `GET /expiring` query and
implements no sweeper that mutates balances or transactions. -/
inductive Op where
  | earn (u : String) (pd : PointCreate)
  | use (u : String) (pd : PointCreate)
  | approve (k : Nat)
  | reject (k : Nat) (reason : String)
  | balance (u : String)
  | reverse (k : Nat) (adminId : Nat) (reason : Option String)
deriving Repr

/-- The state after one operation.  The handlers raise before any mutation,
so an erroring call leaves the state as the handler returns it: unchanged. -/
def applyOp (op : Op) (s : State) : State :=
  match op with
  | .earn u pd => (earn_points pd u s).1
  | .use u pd => (use_points pd u s).1
  | .approve k => (approve_transaction k s).1
  | .reject k reason => (reject_transaction k reason s).1
  | .balance u => (get_point_balance u s).1
  | .reverse k a r => (reverse_points k a r s).1

/-- The state after a sequence of operations. -/
def runOps (ops : List Op) (s : State) : State :=
  ops.foldl (fun s op => applyOp op s) s

end LinkPlace

namespace Phase1

/-- `TransactionType` (`app/models/point_transaction.py`). -/
inductive TransactionType where
  | earned | spent | refunded | expired | adjusted | bonus | penalty
deriving DecidableEq, Repr

/-- `TransactionSource`. -/
inductive TransactionSource where
  | campaign | review | referral | purchase | signup | daily_checkin
  | event | admin | social_share | birthday | expiration | other
deriving DecidableEq, Repr

/-- `TransactionStatus`. -/
inductive TransactionStatus where
  | pending | completed | failed | cancelled | reversed
deriving DecidableEq, Repr

/-- A calendar date standing for the date part of a `datetime`
(the time of day plays no role in the verified properties). -/
structure Date where
  year : Nat
  month : Nat
  day : Nat
deriving DecidableEq, Repr

/-- Gregorian leap year, as Python's `calendar`/`datetime` implement it. -/
def isLeap (y : Nat) : Bool :=
  y % 4 = 0 && (y % 100 ≠ 0 || y % 400 = 0)

/-- Number of days in a month, as `datetime` validates the `day` field. -/
def daysInMonth (y m : Nat) : Nat :=
  if m = 2 then (if isLeap y then 29 else 28)
  else if m = 4 || m = 6 || m = 9 || m = 11 then 30
  else 31

/-- The error `datetime.replace` raises on an out-of-range day. -/
inductive PyError where
  | valueError
deriving DecidableEq, Repr

/-- `d.replace(day=newDay)`: Python's `datetime.replace` re-validates the
new day against the month and year already stored in the datetime and
raises `ValueError` ("day is out of range for month") unless
`1 <= newDay <= daysInMonth`. -/
def replaceDay (d : Date) (newDay : Int) : Except PyError Date :=
  if 1 ≤ newDay ∧ newDay ≤ (daysInMonth d.year d.month : Int) then
    .ok { d with day := newDay.toNat }
  else
    .error .valueError

/-- The `PointTransaction` model.  Machine-generated bookkeeping columns
that no verified property mentions (`metadata`, `ip_address`, `user_agent`,
`processed_at`, `processing_time_ms`, `created_at`, `updated_at`) are
omitted.  `id` is the database-assigned primary key: `none` on a freshly
constructed, not yet persisted object (Python reads it as `None`).
`balance_before`/`balance_after` have no column default and are `none`
until some code assigns them. -/
structure PointTransaction where
  id : Option Nat
  user_id : Nat
  campaign_id : Option Nat
  transaction_type : TransactionType
  source : TransactionSource
  status : TransactionStatus
  points : Int
  balance_before : Option Int
  balance_after : Option Int
  description : String
  reference_id : Option String
  reference_type : Option String
  expires_at : Option Date
  is_expired : Bool
  related_transaction_id : Option Nat
  admin_user_id : Option Nat
  admin_notes : Option String
deriving DecidableEq, Repr

namespace PointTransaction

/-- `is_earning_transaction`: earned, refunded or bonus. -/
def is_earning_transaction (t : PointTransaction) : Bool :=
  match t.transaction_type with
  | .earned | .refunded | .bonus => true
  | _ => false

/-- `is_spending_transaction`: spent, expired or penalty. -/
def is_spending_transaction (t : PointTransaction) : Bool :=
  match t.transaction_type with
  | .spent | .expired | .penalty => true
  | _ => false

/-- `set_expiry(days_from_now)`: for an earning transaction, computes
`datetime.utcnow().replace(day=datetime.utcnow().day + days_from_now)`,
which raises `ValueError` whenever the incremented day is not a valid day
of the current month; otherwise stores the result in `expires_at`.
For a non-earning transaction it is a no-op.  `now` is the injected
current date. -/
def set_expiry (now : Date) (t : PointTransaction) (days_from_now : Int) :
    Except PyError PointTransaction :=
  if t.is_earning_transaction then
    (replaceDay now ((now.day : Int) + days_from_now)).map
      (fun d => { t with expires_at := some d })
  else
    .ok t

/-- `is_expiring_soon`: `False` when there is no expiry or the points are
already expired; otherwise compares `expires_at` against
`datetime.utcnow().replace(day=datetime.utcnow().day + 30)`, a computation
that raises `ValueError` whenever the current day-of-month plus 30 is not
a valid day of the current month. -/
def is_expiring_soon (now : Date) (t : PointTransaction) :
    Except PyError Bool :=
  match t.expires_at with
  | none => .ok false
  | some e =>
      if t.is_expired then .ok false
      else
        (replaceDay now ((now.day : Int) + 30)).map
          (fun thirty =>
            (e.year, e.month, e.day) ≤ (thirty.year, thirty.month, thirty.day))

/-- `reverse(admin_user_id, reason)`: unconditionally builds a new
`completed` `adjusted` transaction with the negated points, zero
placeholder snapshot balances (the source comments them "Will be set by
service"; no such service exists in the repository), a
`related_transaction_id` pointing at the original, and sets the original's
status to `reversed`.  Returns the mutated original and the new
transaction.  Faithful to the source, no status precondition is checked
and no balance aggregate is touched. -/
def reverse (t : PointTransaction) (admin_user_id : Nat)
    (reason : Option String) : PointTransaction × PointTransaction :=
  let reverse_transaction : PointTransaction :=
    { id := none, user_id := t.user_id, campaign_id := none,
      transaction_type := .adjusted, source := .admin,
      status := .completed, points := -t.points,
      balance_before := some 0, balance_after := some 0,
      description := "Reversal of transaction #"
        ++ (match t.id with | some n => toString n | none => "None")
        ++ ": " ++ reason.getD "Administrative reversal",
      reference_id := none, reference_type := none,
      expires_at := none, is_expired := false,
      related_transaction_id := t.id,
      admin_user_id := some admin_user_id, admin_notes := reason }
  ({ t with status := .reversed }, reverse_transaction)

/-- `expire()`: marks the points expired (status forced to completed). -/
def expire (t : PointTransaction) : PointTransaction :=
  { t with is_expired := true, status := .completed }

/-- `create_earning_transaction`: builds an `earned` transaction with
`points = abs(points)` (the source coerces, it does not validate), the
column defaults `status = completed` and `is_expired = false`, and unset
snapshot balances; when `expires_in_days > 0` it calls `set_expiry`, whose
`ValueError` propagates to the caller. -/
def create_earning_transaction (user_id : Nat) (points : Int)
    (source : TransactionSource) (description : String)
    (campaign_id : Option Nat) (expires_in_days : Int)
    (reference_id : Option String) (reference_type : Option String)
    (now : Date) : Except PyError PointTransaction :=
  let t : PointTransaction :=
    { id := none, user_id := user_id, campaign_id := campaign_id,
      transaction_type := .earned, source := source,
      status := .completed, points := (points.natAbs : Int),
      balance_before := none, balance_after := none,
      description := description, reference_id := reference_id,
      reference_type := reference_type, expires_at := none,
      is_expired := false, related_transaction_id := none,
      admin_user_id := none, admin_notes := none }
  if expires_in_days > 0 then t.set_expiry now expires_in_days
  else .ok t

/-- `create_spending_transaction`: builds a `spent` transaction with
`points = -abs(points)` (coerced, not validated) and the column defaults. -/
def create_spending_transaction (user_id : Nat) (points : Int)
    (source : TransactionSource) (description : String)
    (reference_id : Option String) (reference_type : Option String) :
    PointTransaction :=
  { id := none, user_id := user_id, campaign_id := none,
    transaction_type := .spent, source := source,
    status := .completed, points := -(points.natAbs : Int),
    balance_before := none, balance_after := none,
    description := description, reference_id := reference_id,
    reference_type := reference_type, expires_at := none,
    is_expired := false, related_transaction_id := none,
    admin_user_id := none, admin_notes := none }

end PointTransaction

/-- The snapshot-balance invariant the specification states for completed
entries: `balance_after = balance_before + magnitude` (vacuous while the
snapshots are unset). -/
def snapshotInvariant (t : PointTransaction) : Prop :=
  t.balance_after = t.balance_before.map (fun b => b + t.points)

/-- `now` is a well-formed calendar date. -/
def validDate (d : Date) : Prop :=
  1 ≤ d.month ∧ d.month ≤ 12 ∧ 1 ≤ d.day ∧ d.day ≤ daysInMonth d.year d.month

instance (d : Date) : Decidable (validDate d) := by
  unfold validDate; infer_instance

end Phase1

namespace LinkPlace

/-- In every reachable state, a pending transaction is an `"earned"` one
whose user has a balance record. -/
def PendingOk (s : State) : Prop :=
  ∀ k t, findTx k s.transactions_db = some t → t.status = "pending" →
    t.transaction_type = "earned" ∧ ∃ b, s.points_db t.user_email = some b

/-- A state reachable from the module's initial state by a sequence of
inbound calls. -/
def Reachable (s : State) : Prop :=
  ∃ ops : List Op, runOps ops initState = s

/-- Every stored balance aggregate has a nonnegative `available_points`. -/
def BalNonneg (s : State) : Prop :=
  ∀ u b, s.points_db u = some b → 0 ≤ b.available_points

/-- Every pending `"earned"` transaction carries a nonnegative amount. -/
def PendEarnNonneg (s : State) : Prop :=
  ∀ k t, findTx k s.transactions_db = some t → t.status = "pending" →
    t.transaction_type = "earned" → 0 ≤ t.points

/-- The operation requests a nonnegative earn amount (vacuous for the
other operations).  The schema `PointCreate` itself does not enforce
this. -/
def earnNonneg : Op → Prop
  | .earn _ pd => 0 ≤ pd.points
  | _ => True

instance (op : Op) : Decidable (earnNonneg op) := by
  cases op <;> unfold earnNonneg <;> infer_instance

end LinkPlace

namespace Phase1

/-- A persisted, completed earning entry with consistent snapshots,
used to exhibit the reversal snapshot bug. -/
def completedSample : PointTransaction :=
  { id := some 7, user_id := 3, campaign_id := none,
    transaction_type := .earned, source := .review, status := .completed,
    points := 100, balance_before := some 200, balance_after := some 300,
    description := "review reward", reference_id := none,
    reference_type := none, expires_at := none, is_expired := false,
    related_transaction_id := none, admin_user_id := none,
    admin_notes := none }

/-- A persisted, still pending earning entry. -/
def pendingSample : PointTransaction :=
  { id := some 8, user_id := 3, campaign_id := none,
    transaction_type := .earned, source := .campaign, status := .pending,
    points := 50, balance_before := none, balance_after := none,
    description := "campaign reward", reference_id := none,
    reference_type := none, expires_at := none, is_expired := false,
    related_transaction_id := none, admin_user_id := none,
    admin_notes := none }

/-- A completed earning entry that has an expiry date and is not yet
expired. -/
def expiringSample : PointTransaction :=
  { id := some 9, user_id := 3, campaign_id := none,
    transaction_type := .earned, source := .review, status := .completed,
    points := 10, balance_before := none, balance_after := none,
    description := "soon to expire", reference_id := none,
    reference_type := none, expires_at := some ⟨2026, 10, 20⟩,
    is_expired := false, related_transaction_id := none,
    admin_user_id := none, admin_notes := none }

end Phase1


namespace LinkPlace

/-! Basic lemmas about the store operations. -/

theorem setBal_same (u : String) (b : Balance) (f : String → Option Balance) :
    setBal u b f u = some b := by
  simp [setBal]

theorem setBal_cases {u v : String} {b b' : Balance}
    {f : String → Option Balance} (h : setBal u b f v = some b') :
    (v = u ∧ b' = b) ∨ (v ≠ u ∧ f v = some b') := by
  unfold setBal at h
  by_cases hv : v = u
  · rw [if_pos hv] at h
    exact Or.inl ⟨hv, by injection h with h; exact h.symm⟩
  · rw [if_neg hv] at h
    exact Or.inr ⟨hv, h⟩

theorem setBal_isSome {v : String} {b' : Balance} {f : String → Option Balance}
    (u : String) (b : Balance) (h : f v = some b') :
    ∃ b'', setBal u b f v = some b'' := by
  unfold setBal
  by_cases hv : v = u
  · rw [if_pos hv]; exact ⟨b, rfl⟩
  · rw [if_neg hv]; exact ⟨b', h⟩

theorem findTx_cons_self (k : Nat) (t : Txn15) (db : List (Nat × Txn15)) :
    findTx k ((k, t) :: db) = some t := by
  simp [findTx]

theorem findTx_cons_cases {k k' : Nat} {t t' : Txn15} {db : List (Nat × Txn15)}
    (h : findTx k ((k', t') :: db) = some t) :
    (k' = k ∧ t = t') ∨ (k' ≠ k ∧ findTx k db = some t) := by
  unfold findTx at h
  by_cases hk : k' = k
  · rw [if_pos hk] at h
    exact Or.inl ⟨hk, by injection h with h; exact h.symm⟩
  · rw [if_neg hk] at h
    exact Or.inr ⟨hk, h⟩

theorem findTx_updateTx_self {k : Nat} {t : Txn15} {db : List (Nat × Txn15)}
    (t' : Txn15) (h : findTx k db = some t) :
    findTx k (updateTx k t' db) = some t' := by
  induction db with
  | nil => simp [findTx] at h
  | cons p db ih =>
      obtain ⟨k'', t''⟩ := p
      simp only [updateTx, List.map_cons]
      by_cases hk : k'' = k
      · rw [if_pos hk]
        unfold findTx
        rw [if_pos hk]
      · rw [if_neg hk]
        unfold findTx at h ⊢
        rw [if_neg hk] at h ⊢
        exact ih h

theorem findTx_updateTx_cases {k k' : Nat} {t t' : Txn15}
    {db : List (Nat × Txn15)}
    (h : findTx k (updateTx k' t' db) = some t) :
    t = t' ∨ findTx k db = some t := by
  induction db with
  | nil => simp [updateTx, findTx] at h
  | cons p db ih =>
      obtain ⟨k'', t''⟩ := p
      simp only [updateTx, List.map_cons] at h
      by_cases hk' : k'' = k'
      · rw [if_pos hk'] at h
        rcases findTx_cons_cases h with ⟨_, rfl⟩ | ⟨hne, h₂⟩
        · exact Or.inl rfl
        · rcases ih h₂ with h₃ | h₃
          · exact Or.inl h₃
          · right
            unfold findTx
            rw [if_neg hne]
            exact h₃
      · rw [if_neg hk'] at h
        rcases findTx_cons_cases h with ⟨hek, rfl⟩ | ⟨hne, h₂⟩
        · right
          unfold findTx
          rw [if_pos hek]
        · rcases ih h₂ with h₃ | h₃
          · exact Or.inl h₃
          · right
            unfold findTx
            rw [if_neg hne]
            exact h₃

theorem getD_available (s : State) (u : String) :
    ((s.points_db u).getD (zeroBalance u)).available_points = availOf s u := by
  unfold availOf
  cases s.points_db u <;> simp [zeroBalance]

theorem getD_pending (s : State) (u : String) :
    ((s.points_db u).getD (zeroBalance u)).pending_points = pendingOf s u := by
  unfold pendingOf
  cases s.points_db u <;> simp [zeroBalance]

theorem getD_total (s : State) (u : String) :
    ((s.points_db u).getD (zeroBalance u)).total_points = totalOf s u := by
  unfold totalOf
  cases s.points_db u <;> simp [zeroBalance]

/-- C2 — For every user whose `available_points` is strictly below the
requested amount (a user with no balance record counts as 0 available),
`use_points` fails with `InsufficientPoints` and returns the state intact:
both the balance aggregate and the transaction ledger are unchanged. -/
theorem use_points_insufficient (s : State) (u : String) (pd : PointCreate)
    (h : availOf s u < pd.points) :
    use_points pd u s = (s, .error .insufficientPoints) := by
  unfold use_points
  unfold availOf at h
  cases hb : s.points_db u with
  | none => rfl
  | some b =>
      rw [hb] at h
      simp only [if_pos h]

/-- C2 witness — a user whose balance record shows `available = 0`
(created by a prior balance read) spending 50 points receives
`InsufficientPoints` with the state unchanged. -/
theorem use_points_insufficient_witness :
    availOf (get_point_balance "u@x.com" initState).1 "u@x.com" < 50 ∧
    use_points { points := 50, source := "coupon", source_id := 1,
                 description := some "x" } "u@x.com"
        (get_point_balance "u@x.com" initState).1
      = ((get_point_balance "u@x.com" initState).1,
         .error .insufficientPoints) :=
  ⟨by decide,
   use_points_insufficient _ _ _ (by decide)⟩

/-- C10 — For an authenticated user with no balance record,
`get_point_balance` succeeds, returns an aggregate whose five point
counters are all 0, and lazily stores that aggregate in the database as a
side effect of the read. -/
theorem get_point_balance_lazy_create (s : State) (u : String)
    (h : s.points_db u = none) :
    (get_point_balance u s).2.total_points = 0 ∧
    (get_point_balance u s).2.available_points = 0 ∧
    (get_point_balance u s).2.pending_points = 0 ∧
    (get_point_balance u s).2.used_points = 0 ∧
    (get_point_balance u s).2.expired_points = 0 ∧
    (get_point_balance u s).1.points_db u = some (zeroBalance u) := by
  unfold get_point_balance
  rw [h]
  refine ⟨rfl, rfl, rfl, rfl, rfl, ?_⟩
  exact setBal_same u (zeroBalance u) s.points_db

/-- C10 witness — a fresh user reading the balance on the initial
state gets the all-zero aggregate, which is stored. -/
theorem get_point_balance_lazy_create_witness :
    initState.points_db "nobody@example.com" = none ∧
    ((get_point_balance "nobody@example.com" initState).2.total_points = 0 ∧
     (get_point_balance "nobody@example.com" initState).2.available_points = 0 ∧
     (get_point_balance "nobody@example.com" initState).2.pending_points = 0 ∧
     (get_point_balance "nobody@example.com" initState).2.used_points = 0 ∧
     (get_point_balance "nobody@example.com" initState).2.expired_points = 0 ∧
     (get_point_balance "nobody@example.com" initState).1.points_db
         "nobody@example.com"
       = some (zeroBalance "nobody@example.com")) :=
  ⟨by decide, get_point_balance_lazy_create initState "nobody@example.com" (by decide)⟩

end LinkPlace

namespace LinkPlace

theorem pendingOk_applyOp {s : State} (op : Op) (h : PendingOk s) :
    PendingOk (applyOp op s) := by
  cases op with
  | earn u pd =>
      intro k t hf hp
      simp only [applyOp, earn_points] at hf ⊢
      rcases findTx_cons_cases hf with ⟨_, rfl⟩ | ⟨_, hf₂⟩
      · exact ⟨rfl, _, setBal_same _ _ _⟩
      · obtain ⟨he, b, hb⟩ := h k t hf₂ hp
        exact ⟨he, setBal_isSome _ _ hb⟩
  | use u pd =>
      intro k t hf hp
      cases hpu : s.points_db u with
      | none =>
          simp only [applyOp, use_points, hpu] at hf ⊢
          exact h k t hf hp
      | some b =>
          by_cases hlt : b.available_points < pd.points
          · simp only [applyOp, use_points, hpu, if_pos hlt] at hf ⊢
            exact h k t hf hp
          · simp only [applyOp, use_points, hpu, if_neg hlt] at hf ⊢
            rcases findTx_cons_cases hf with ⟨_, rfl⟩ | ⟨_, hf₂⟩
            · simp at hp
            · obtain ⟨he, b₂, hb₂⟩ := h k t hf₂ hp
              exact ⟨he, setBal_isSome _ _ hb₂⟩
  | approve k' =>
      intro k t hf hp
      cases hft : findTx k' s.transactions_db with
      | none =>
          simp only [applyOp, approve_transaction, hft] at hf ⊢
          exact h k t hf hp
      | some t₁ =>
          by_cases hst : t₁.status ≠ "pending"
          · simp only [applyOp, approve_transaction, hft, if_pos hst] at hf ⊢
            exact h k t hf hp
          · by_cases hty : t₁.transaction_type = "earned"
            · cases hpb : s.points_db t₁.user_email with
              | none =>
                  simp only [applyOp, approve_transaction, hft, if_neg hst,
                             if_pos hty, hpb] at hf ⊢
                  rcases findTx_updateTx_cases hf with rfl | hf₂
                  · simp at hp
                  · exact h k t hf₂ hp
              | some b =>
                  simp only [applyOp, approve_transaction, hft, if_neg hst,
                             if_pos hty, hpb] at hf ⊢
                  rcases findTx_updateTx_cases hf with rfl | hf₂
                  · simp at hp
                  · obtain ⟨he, b₂, hb₂⟩ := h k t hf₂ hp
                    exact ⟨he, setBal_isSome _ _ hb₂⟩
            · simp only [applyOp, approve_transaction, hft, if_neg hst,
                         if_neg hty] at hf ⊢
              rcases findTx_updateTx_cases hf with rfl | hf₂
              · simp at hp
              · exact h k t hf₂ hp
  | reject k' reason =>
      intro k t hf hp
      cases hft : findTx k' s.transactions_db with
      | none =>
          simp only [applyOp, reject_transaction, hft] at hf ⊢
          exact h k t hf hp
      | some t₁ =>
          by_cases hst : t₁.status ≠ "pending"
          · simp only [applyOp, reject_transaction, hft, if_pos hst] at hf ⊢
            exact h k t hf hp
          · by_cases hty : t₁.transaction_type = "earned"
            · cases hpb : s.points_db t₁.user_email with
              | none =>
                  simp only [applyOp, reject_transaction, hft, if_neg hst,
                             if_pos hty, hpb] at hf ⊢
                  rcases findTx_updateTx_cases hf with rfl | hf₂
                  · simp at hp
                  · exact h k t hf₂ hp
              | some b =>
                  simp only [applyOp, reject_transaction, hft, if_neg hst,
                             if_pos hty, hpb] at hf ⊢
                  rcases findTx_updateTx_cases hf with rfl | hf₂
                  · simp at hp
                  · obtain ⟨he, b₂, hb₂⟩ := h k t hf₂ hp
                    exact ⟨he, setBal_isSome _ _ hb₂⟩
            · simp only [applyOp, reject_transaction, hft, if_neg hst,
                         if_neg hty] at hf ⊢
              rcases findTx_updateTx_cases hf with rfl | hf₂
              · simp at hp
              · exact h k t hf₂ hp
  | balance u =>
      intro k t hf hp
      cases hpu : s.points_db u with
      | none =>
          simp only [applyOp, get_point_balance, hpu] at hf ⊢
          obtain ⟨he, b, hb⟩ := h k t hf hp
          exact ⟨he, setBal_isSome _ _ hb⟩
      | some b =>
          simp only [applyOp, get_point_balance, hpu] at hf ⊢
          exact h k t hf hp
  | reverse k' a r =>
      intro k t hf hp
      cases hft : findTx k' s.transactions_db with
      | none =>
          simp only [applyOp, reverse_points, hft] at hf ⊢
          exact h k t hf hp
      | some t₁ =>
          simp only [applyOp, reverse_points, hft] at hf ⊢
          rcases findTx_cons_cases hf with ⟨_, rfl⟩ | ⟨_, hf₂⟩
          · simp at hp
          · rcases findTx_updateTx_cases hf₂ with rfl | hf₃
            · simp at hp
            · exact h k t hf₃ hp

end LinkPlace

namespace LinkPlace

theorem pendingOk_init : PendingOk initState := by
  intro k t hf hp
  unfold initState findTx at hf
  by_cases h1 : 1 = k
  · rw [if_pos h1] at hf
    injection hf with hf
    rw [← hf] at hp
    simp [initTx1] at hp
  · rw [if_neg h1] at hf
    unfold findTx at hf
    by_cases h2 : 2 = k
    · rw [if_pos h2] at hf
      injection hf with hf
      rw [← hf] at hp
      simp [initTx2] at hp
    · rw [if_neg h2] at hf
      unfold findTx at hf
      by_cases h3 : 3 = k
      · rw [if_pos h3] at hf
        injection hf with hf
        rw [← hf]
        exact ⟨rfl, _, rfl⟩
      · rw [if_neg h3] at hf
        simp [findTx] at hf

theorem pendingOk_runOps {s : State} (ops : List Op) (h : PendingOk s) :
    PendingOk (runOps ops s) := by
  induction ops generalizing s with
  | nil => exact h
  | cons op ops ih => exact ih (pendingOk_applyOp op h)

theorem pendingOk_reachable {s : State} (h : Reachable s) : PendingOk s := by
  obtain ⟨ops, rfl⟩ := h
  exact pendingOk_runOps ops pendingOk_init

/-- C7 — in any reachable state, a first `reject` of a pending
transaction succeeds, marks it `failed`, withdraws its points from the
user's `pending_points` and leaves `available_points` and `total_points`
untouched; a second `reject` of the same transaction fails with
`Transaction is not pending` and returns the state intact. -/
theorem reject_idempotence (s : State) (hs : Reachable s) (k : Nat)
    (t : Txn15) (ht : findTx k s.transactions_db = some t)
    (hp : t.status = "pending") (r₁ r₂ : String) :
    (reject_transaction k r₁ s).2 = .ok () ∧
    ((findTx k (reject_transaction k r₁ s).1.transactions_db).map Txn15.status
      = some "failed") ∧
    pendingOf (reject_transaction k r₁ s).1 t.user_email
      = pendingOf s t.user_email - t.points ∧
    availOf (reject_transaction k r₁ s).1 t.user_email
      = availOf s t.user_email ∧
    totalOf (reject_transaction k r₁ s).1 t.user_email
      = totalOf s t.user_email ∧
    reject_transaction k r₂ (reject_transaction k r₁ s).1
      = ((reject_transaction k r₁ s).1, .error .transactionNotPending) := by
  obtain ⟨hty, b, hb⟩ := pendingOk_reachable hs k t ht hp
  have hnst : ¬ t.status ≠ "pending" := by simp [hp]
  have h1 : reject_transaction k r₁ s
      = ({ points_db := setBal t.user_email
              { b with pending_points := b.pending_points - t.points }
              s.points_db,
           transactions_db := updateTx k
              { t with
                status := "failed",
                description := t.description ++ " (거부 사유: " ++ r₁ ++ ")" }
              s.transactions_db }, .ok ()) := by
    simp only [reject_transaction, ht, if_neg hnst, if_pos hty, hb]
  have hf1 : findTx k (reject_transaction k r₁ s).1.transactions_db
      = some { t with
               status := "failed",
               description := t.description ++ " (거부 사유: " ++ r₁ ++ ")" } := by
    rw [h1]
    exact findTx_updateTx_self _ ht
  refine ⟨by rw [h1], by rw [hf1]; rfl, ?_, ?_, ?_, ?_⟩
  · rw [h1]
    simp only [pendingOf, setBal_same, hb]
  · rw [h1]
    simp only [availOf, setBal_same, hb]
  · rw [h1]
    simp only [totalOf, setBal_same, hb]
  · have hnst2 : ({ t with
                    status := "failed",
                    description := t.description ++ " (거부 사유: " ++ r₁ ++ ")" }
          : Txn15).status ≠ "pending" := by simp
    rw [h1] at hf1 ⊢
    simp only [reject_transaction, hf1, if_pos hnst2]

end LinkPlace

namespace LinkPlace

/-- C7 witness — rejecting the pending transaction 3 of the initial
state, then rejecting it again. -/
theorem reject_idempotence_witness :
    Reachable initState ∧
    findTx 3 initState.transactions_db = some initTx3 ∧
    initTx3.status = "pending" ∧
    ((reject_transaction 3 "r1" initState).2 = .ok () ∧
     ((findTx 3 (reject_transaction 3 "r1" initState).1.transactions_db).map
         Txn15.status = some "failed") ∧
     pendingOf (reject_transaction 3 "r1" initState).1 initTx3.user_email
       = pendingOf initState initTx3.user_email - initTx3.points ∧
     availOf (reject_transaction 3 "r1" initState).1 initTx3.user_email
       = availOf initState initTx3.user_email ∧
     totalOf (reject_transaction 3 "r1" initState).1 initTx3.user_email
       = totalOf initState initTx3.user_email ∧
     reject_transaction 3 "r2" (reject_transaction 3 "r1" initState).1
       = ((reject_transaction 3 "r1" initState).1,
          .error .transactionNotPending)) :=
  ⟨⟨[], rfl⟩, rfl, rfl,
   reject_idempotence initState ⟨[], rfl⟩ 3 initTx3 rfl rfl "r1" "r2"⟩

end LinkPlace

namespace LinkPlace

theorem availOf_nonneg {s : State} (h : BalNonneg s) (u : String) :
    0 ≤ availOf s u := by
  unfold availOf
  cases hb : s.points_db u with
  | none => exact le_refl 0
  | some b => exact h u b hb

theorem invC1_applyOp {s : State} (op : Op) (h1 : BalNonneg s)
    (h2 : PendEarnNonneg s) (hop : earnNonneg op) :
    BalNonneg (applyOp op s) ∧ PendEarnNonneg (applyOp op s) := by
  cases op with
  | earn u pd =>
      constructor
      · intro v bv hv
        simp only [applyOp, earn_points] at hv
        rcases setBal_cases hv with ⟨rfl, rfl⟩ | ⟨_, hv₂⟩
        · have := availOf_nonneg h1 v
          unfold availOf at this
          cases hb : s.points_db v <;> rw [hb] at this <;> simpa [zeroBalance, hb]
        · exact h1 v bv hv₂
      · intro k t hf hst hty
        simp only [applyOp, earn_points] at hf
        rcases findTx_cons_cases hf with ⟨_, rfl⟩ | ⟨_, hf₂⟩
        · exact hop
        · exact h2 k t hf₂ hst hty
  | use u pd =>
      cases hpu : s.points_db u with
      | none =>
          constructor
          · intro v bv hv
            simp only [applyOp, use_points, hpu] at hv
            exact h1 v bv hv
          · intro k t hf hst hty
            simp only [applyOp, use_points, hpu] at hf
            exact h2 k t hf hst hty
      | some b =>
          by_cases hlt : b.available_points < pd.points
          · constructor
            · intro v bv hv
              simp only [applyOp, use_points, hpu, if_pos hlt] at hv
              exact h1 v bv hv
            · intro k t hf hst hty
              simp only [applyOp, use_points, hpu, if_pos hlt] at hf
              exact h2 k t hf hst hty
          · constructor
            · intro v bv hv
              simp only [applyOp, use_points, hpu, if_neg hlt] at hv
              rcases setBal_cases hv with ⟨rfl, rfl⟩ | ⟨_, hv₂⟩
              · simp only []
                omega
              · exact h1 v bv hv₂
            · intro k t hf hst hty
              simp only [applyOp, use_points, hpu, if_neg hlt] at hf
              rcases findTx_cons_cases hf with ⟨_, rfl⟩ | ⟨_, hf₂⟩
              · simp at hst
              · exact h2 k t hf₂ hst hty
  | approve k' =>
      cases hft : findTx k' s.transactions_db with
      | none =>
          constructor
          · intro v bv hv
            simp only [applyOp, approve_transaction, hft] at hv
            exact h1 v bv hv
          · intro k t hf hst hty
            simp only [applyOp, approve_transaction, hft] at hf
            exact h2 k t hf hst hty
      | some t₁ =>
          by_cases hst1 : t₁.status ≠ "pending"
          · constructor
            · intro v bv hv
              simp only [applyOp, approve_transaction, hft, if_pos hst1] at hv
              exact h1 v bv hv
            · intro k t hf hst hty
              simp only [applyOp, approve_transaction, hft, if_pos hst1] at hf
              exact h2 k t hf hst hty
          · have hpend : t₁.status = "pending" := not_not.mp hst1
            by_cases hty1 : t₁.transaction_type = "earned"
            · cases hpb : s.points_db t₁.user_email with
              | none =>
                  constructor
                  · intro v bv hv
                    simp only [applyOp, approve_transaction, hft, if_neg hst1,
                               if_pos hty1, hpb] at hv
                    exact h1 v bv hv
                  · intro k t hf hst hty
                    simp only [applyOp, approve_transaction, hft, if_neg hst1,
                               if_pos hty1, hpb] at hf
                    rcases findTx_updateTx_cases hf with rfl | hf₂
                    · simp at hst
                    · exact h2 k t hf₂ hst hty
              | some b =>
                  have hb0 : 0 ≤ b.available_points := h1 _ b hpb
                  have ht0 : 0 ≤ t₁.points := h2 k' t₁ hft hpend hty1
                  constructor
                  · intro v bv hv
                    simp only [applyOp, approve_transaction, hft, if_neg hst1,
                               if_pos hty1, hpb] at hv
                    rcases setBal_cases hv with ⟨rfl, rfl⟩ | ⟨_, hv₂⟩
                    · simp only []
                      omega
                    · exact h1 v bv hv₂
                  · intro k t hf hst hty
                    simp only [applyOp, approve_transaction, hft, if_neg hst1,
                               if_pos hty1, hpb] at hf
                    rcases findTx_updateTx_cases hf with rfl | hf₂
                    · simp at hst
                    · exact h2 k t hf₂ hst hty
            · constructor
              · intro v bv hv
                simp only [applyOp, approve_transaction, hft, if_neg hst1,
                           if_neg hty1] at hv
                exact h1 v bv hv
              · intro k t hf hst hty
                simp only [applyOp, approve_transaction, hft, if_neg hst1,
                           if_neg hty1] at hf
                rcases findTx_updateTx_cases hf with rfl | hf₂
                · simp at hst
                · exact h2 k t hf₂ hst hty
  | reject k' reason =>
      cases hft : findTx k' s.transactions_db with
      | none =>
          constructor
          · intro v bv hv
            simp only [applyOp, reject_transaction, hft] at hv
            exact h1 v bv hv
          · intro k t hf hst hty
            simp only [applyOp, reject_transaction, hft] at hf
            exact h2 k t hf hst hty
      | some t₁ =>
          by_cases hst1 : t₁.status ≠ "pending"
          · constructor
            · intro v bv hv
              simp only [applyOp, reject_transaction, hft, if_pos hst1] at hv
              exact h1 v bv hv
            · intro k t hf hst hty
              simp only [applyOp, reject_transaction, hft, if_pos hst1] at hf
              exact h2 k t hf hst hty
          · by_cases hty1 : t₁.transaction_type = "earned"
            · cases hpb : s.points_db t₁.user_email with
              | none =>
                  constructor
                  · intro v bv hv
                    simp only [applyOp, reject_transaction, hft, if_neg hst1,
                               if_pos hty1, hpb] at hv
                    exact h1 v bv hv
                  · intro k t hf hst hty
                    simp only [applyOp, reject_transaction, hft, if_neg hst1,
                               if_pos hty1, hpb] at hf
                    rcases findTx_updateTx_cases hf with rfl | hf₂
                    · simp at hst
                    · exact h2 k t hf₂ hst hty
              | some b =>
                  constructor
                  · intro v bv hv
                    simp only [applyOp, reject_transaction, hft, if_neg hst1,
                               if_pos hty1, hpb] at hv
                    rcases setBal_cases hv with ⟨rfl, rfl⟩ | ⟨_, hv₂⟩
                    · exact h1 _ b hpb
                    · exact h1 v bv hv₂
                  · intro k t hf hst hty
                    simp only [applyOp, reject_transaction, hft, if_neg hst1,
                               if_pos hty1, hpb] at hf
                    rcases findTx_updateTx_cases hf with rfl | hf₂
                    · simp at hst
                    · exact h2 k t hf₂ hst hty
            · constructor
              · intro v bv hv
                simp only [applyOp, reject_transaction, hft, if_neg hst1,
                           if_neg hty1] at hv
                exact h1 v bv hv
              · intro k t hf hst hty
                simp only [applyOp, reject_transaction, hft, if_neg hst1,
                           if_neg hty1] at hf
                rcases findTx_updateTx_cases hf with rfl | hf₂
                · simp at hst
                · exact h2 k t hf₂ hst hty
  | balance u =>
      cases hpu : s.points_db u with
      | none =>
          constructor
          · intro v bv hv
            simp only [applyOp, get_point_balance, hpu] at hv
            rcases setBal_cases hv with ⟨rfl, rfl⟩ | ⟨_, hv₂⟩
            · simp [zeroBalance]
            · exact h1 v bv hv₂
          · intro k t hf hst hty
            simp only [applyOp, get_point_balance, hpu] at hf
            exact h2 k t hf hst hty
      | some b =>
          constructor
          · intro v bv hv
            simp only [applyOp, get_point_balance, hpu] at hv
            exact h1 v bv hv
          · intro k t hf hst hty
            simp only [applyOp, get_point_balance, hpu] at hf
            exact h2 k t hf hst hty
  | reverse k' a r =>
      cases hft : findTx k' s.transactions_db with
      | none =>
          constructor
          · intro v bv hv
            simp only [applyOp, reverse_points, hft] at hv
            exact h1 v bv hv
          · intro k t hf hst hty
            simp only [applyOp, reverse_points, hft] at hf
            exact h2 k t hf hst hty
      | some t₁ =>
          constructor
          · intro v bv hv
            simp only [applyOp, reverse_points, hft] at hv
            exact h1 v bv hv
          · intro k t hf hst hty
            simp only [applyOp, reverse_points, hft] at hf
            rcases findTx_cons_cases hf with ⟨_, rfl⟩ | ⟨_, hf₂⟩
            · simp at hst
            · rcases findTx_updateTx_cases hf₂ with rfl | hf₃
              · simp at hst
              · exact h2 k t hf₃ hst hty

end LinkPlace

namespace LinkPlace

theorem balNonneg_init : BalNonneg initState := by
  intro u b h
  simp only [initState] at h
  split_ifs at h <;> first
    | (injection h with h; rw [← h]; decide)
    | cases h

theorem pendEarnNonneg_init : PendEarnNonneg initState := by
  intro k t hf hst hty
  unfold initState findTx at hf
  by_cases h1 : 1 = k
  · rw [if_pos h1] at hf
    injection hf with hf
    rw [← hf] at hst
    simp [initTx1] at hst
  · rw [if_neg h1] at hf
    unfold findTx at hf
    by_cases h2 : 2 = k
    · rw [if_pos h2] at hf
      injection hf with hf
      rw [← hf] at hst
      simp [initTx2] at hst
    · rw [if_neg h2] at hf
      unfold findTx at hf
      by_cases h3 : 3 = k
      · rw [if_pos h3] at hf
        injection hf with hf
        rw [← hf]
        decide
      · rw [if_neg h3] at hf
        simp [findTx] at hf

theorem invC1_runOps {s : State} (ops : List Op)
    (h : ∀ op ∈ ops, earnNonneg op) (h1 : BalNonneg s)
    (h2 : PendEarnNonneg s) :
    BalNonneg (runOps ops s) ∧ PendEarnNonneg (runOps ops s) := by
  induction ops generalizing s with
  | nil => exact ⟨h1, h2⟩
  | cons op ops ih =>
      have hop : earnNonneg op := h op (List.mem_cons_self op ops)
      have hnext := invC1_applyOp op h1 h2 hop
      exact ih (fun o ho => h o (List.mem_cons_of_mem op ho)) hnext.1 hnext.2

/-- C1 (amended) — provided every `earn` in the sequence requests a
nonnegative amount, every operation sequence from the initial state keeps
every user's `available_points` nonnegative.  (Without that restriction
the invariant fails: the schema does not validate amounts, and approving
a negative earn drives the balance negative — see the counterexample.) -/
theorem available_nonneg_of_nonneg_earns (ops : List Op)
    (h : ∀ op ∈ ops, earnNonneg op) :
    ∀ u b, (runOps ops initState).points_db u = some b →
      0 ≤ b.available_points :=
  (invC1_runOps ops h balNonneg_init pendEarnNonneg_init).1

/-- C1 witness — a sequence exercising every operation keeps all
available balances nonnegative. -/
theorem available_nonneg_of_nonneg_earns_witness :
    (∀ op ∈ [Op.earn "admin@linkplace.com"
               { points := 100, source := "review_write", source_id := 1,
                 description := none },
             Op.use "admin@linkplace.com"
               { points := 30, source := "coupon_purchase", source_id := 2,
                 description := none },
             Op.approve 4, Op.reject 3 "r",
             Op.balance "z@x.com", Op.reverse 1 1 none], earnNonneg op) ∧
    (∀ u b, (runOps [Op.earn "admin@linkplace.com"
               { points := 100, source := "review_write", source_id := 1,
                 description := none },
             Op.use "admin@linkplace.com"
               { points := 30, source := "coupon_purchase", source_id := 2,
                 description := none },
             Op.approve 4, Op.reject 3 "r",
             Op.balance "z@x.com", Op.reverse 1 1 none] initState).points_db u
        = some b → 0 ≤ b.available_points) :=
  ⟨by decide, available_nonneg_of_nonneg_earns _ (by decide)⟩

/-- C1 counterexample — the claim as stated is false: the handlers
never validate amounts, so earning −50 and approving that transaction
drives the user's `available_points` to −50. -/
theorem available_nonneg_counterexample :
    ¬ (∀ ops : List Op, ∀ u b,
        (runOps ops initState).points_db u = some b →
          0 ≤ b.available_points) := by
  intro h
  have := h [Op.earn "x@y.com"
               { points := -50, source := "review_write", source_id := 1,
                 description := none },
             Op.approve 4] "x@y.com"
      { user_email := "x@y.com", total_points := -50,
        available_points := -50, pending_points := 0, used_points := 0,
        expired_points := 0 } (by decide)
  exact absurd this (by decide)

end LinkPlace

namespace LinkPlace

/-- C5 — `earn_points` creates a pending entry under the fresh id and
adds the amount to `pending_points` leaving `available_points` unchanged;
approving that entry completes it, posts the amount to `available_points`
and `total_points`, and withdraws it from `pending_points`. -/
theorem earn_then_approve (s : State) (u : String) (pd : PointCreate)
    (_hp : 0 < pd.points) :
    (earn_points pd u s).2 = .ok (newId s.transactions_db) ∧
    ((findTx (newId s.transactions_db)
        (earn_points pd u s).1.transactions_db).map Txn15.status
      = some "pending") ∧
    pendingOf (earn_points pd u s).1 u = pendingOf s u + pd.points ∧
    availOf (earn_points pd u s).1 u = availOf s u ∧
    (approve_transaction (newId s.transactions_db) (earn_points pd u s).1).2
      = .ok () ∧
    ((findTx (newId s.transactions_db)
        (approve_transaction (newId s.transactions_db)
            (earn_points pd u s).1).1.transactions_db).map Txn15.status
      = some "completed") ∧
    availOf (approve_transaction (newId s.transactions_db)
        (earn_points pd u s).1).1 u
      = availOf (earn_points pd u s).1 u + pd.points ∧
    totalOf (approve_transaction (newId s.transactions_db)
        (earn_points pd u s).1).1 u
      = totalOf (earn_points pd u s).1 u + pd.points ∧
    pendingOf (approve_transaction (newId s.transactions_db)
        (earn_points pd u s).1).1 u
      = pendingOf (earn_points pd u s).1 u - pd.points := by
  refine ⟨rfl, ?_, ?_, ?_, ?_, ?_, ?_, ?_, ?_⟩ <;>
    cases hpu : s.points_db u <;>
    simp [earn_points, approve_transaction, findTx, updateTx,
          availOf, pendingOf, totalOf, setBal, zeroBalance, hpu]

/-- C5 witness — a fresh user earns 500 pending points on the initial
state; approval of the new transaction 4 posts them. -/
theorem earn_then_approve_witness :
    0 < (500 : Int) ∧
    ((earn_points { points := 500, source := "review_write", source_id := 1,
                    description := none } "new@example.com" initState).2
       = .ok (newId initState.transactions_db) ∧
     ((findTx (newId initState.transactions_db)
         (earn_points { points := 500, source := "review_write",
                        source_id := 1, description := none }
             "new@example.com" initState).1.transactions_db).map Txn15.status
       = some "pending") ∧
     pendingOf (earn_points { points := 500, source := "review_write",
                              source_id := 1, description := none }
         "new@example.com" initState).1 "new@example.com"
       = pendingOf initState "new@example.com" + 500 ∧
     availOf (earn_points { points := 500, source := "review_write",
                            source_id := 1, description := none }
         "new@example.com" initState).1 "new@example.com"
       = availOf initState "new@example.com" ∧
     (approve_transaction (newId initState.transactions_db)
         (earn_points { points := 500, source := "review_write",
                        source_id := 1, description := none }
             "new@example.com" initState).1).2 = .ok () ∧
     ((findTx (newId initState.transactions_db)
         (approve_transaction (newId initState.transactions_db)
             (earn_points { points := 500, source := "review_write",
                            source_id := 1, description := none }
                 "new@example.com" initState).1).1.transactions_db).map
           Txn15.status = some "completed") ∧
     availOf (approve_transaction (newId initState.transactions_db)
         (earn_points { points := 500, source := "review_write",
                        source_id := 1, description := none }
             "new@example.com" initState).1).1 "new@example.com"
       = availOf (earn_points { points := 500, source := "review_write",
                                source_id := 1, description := none }
           "new@example.com" initState).1 "new@example.com" + 500 ∧
     totalOf (approve_transaction (newId initState.transactions_db)
         (earn_points { points := 500, source := "review_write",
                        source_id := 1, description := none }
             "new@example.com" initState).1).1 "new@example.com"
       = totalOf (earn_points { points := 500, source := "review_write",
                                source_id := 1, description := none }
           "new@example.com" initState).1 "new@example.com" + 500 ∧
     pendingOf (approve_transaction (newId initState.transactions_db)
         (earn_points { points := 500, source := "review_write",
                        source_id := 1, description := none }
             "new@example.com" initState).1).1 "new@example.com"
       = pendingOf (earn_points { points := 500, source := "review_write",
                                  source_id := 1, description := none }
           "new@example.com" initState).1 "new@example.com" - 500) :=
  ⟨by decide,
   earn_then_approve initState "new@example.com"
     { points := 500, source := "review_write", source_id := 1,
       description := none } (by decide)⟩

end LinkPlace

namespace LinkPlace

theorem maxKey_updateTx (k : Nat) (t' : Txn15) (db : List (Nat × Txn15)) :
    maxKey (updateTx k t' db) = maxKey db := by
  induction db with
  | nil => rfl
  | cons p db ih =>
      obtain ⟨k', t''⟩ := p
      by_cases hk : k' = k
      · simp [updateTx, maxKey, hk] at ih ⊢
        rw [ih]
      · simp [updateTx, maxKey, hk] at ih ⊢
        rw [ih]

theorem maxKey_le_newId (db : List (Nat × Txn15)) : maxKey db ≤ newId db := by
  cases db with
  | nil => simp [maxKey, newId]
  | cons p l => simp [maxKey, newId]

theorem updateTx_cons_self (k : Nat) (t' t : Txn15) (db : List (Nat × Txn15)) :
    updateTx k t' ((k, t) :: db) = (k, t') :: updateTx k t' db := by
  simp [updateTx]

theorem newId_cons (p : Nat × Txn15) (db : List (Nat × Txn15)) :
    newId (p :: db) = Nat.max p.1 (maxKey db) + 1 := by
  simp [newId, maxKey]

theorem length_updateTx (k : Nat) (t' : Txn15) (db : List (Nat × Txn15)) :
    (updateTx k t' db).length = db.length := by
  simp [updateTx]

theorem findTx_cons_ne {k k' : Nat} (h : k' ≠ k) (t : Txn15)
    (db : List (Nat × Txn15)) :
    findTx k ((k', t) :: db) = findTx k db := by
  show (if k' = k then some t else findTx k db) = findTx k db
  rw [if_neg h]

theorem findTx_updateTx (k : Nat) (t' : Txn15) (db : List (Nat × Txn15)) :
    findTx k (updateTx k t' db) = (findTx k db).map (fun _ => t') := by
  induction db with
  | nil => rfl
  | cons p db ih =>
      obtain ⟨k', t''⟩ := p
      by_cases hk : k' = k
      · subst hk
        rw [updateTx_cons_self]
        unfold findTx
        rw [if_pos rfl, if_pos rfl]
        rfl
      · simp only [updateTx, List.map_cons, if_neg hk]
        unfold findTx
        rw [if_neg hk, if_neg hk]
        simpa [updateTx] using ih

theorem newId_update_cons (t' t : Txn15) (db : List (Nat × Txn15)) :
    newId (updateTx (newId db) t' ((newId db, t) :: db)) = newId db + 1 := by
  rw [updateTx_cons_self, newId_cons, maxKey_updateTx]
  have h := maxKey_le_newId db
  show max (newId db) (maxKey db) + 1 = newId db + 1
  rw [max_eq_left h]

end LinkPlace

namespace LinkPlace

/-- C8 (amended) — after `earn 100`, `approve`, `reverse`: the user's
`available_points` is its pre-earn value plus 100 (the repository's
`reverse` creates the adjustment entry and flips the original's status but
posts nothing to balances), and the ledger has grown by exactly the two
linked entries: the original, now `reversed`, and a completed `adjusted`
entry of −100 holding the back reference. -/
theorem earn_approve_reverse (s : State) (u src : String) (sid : Int)
    (d : Option String) (adminId : Nat) (reason : Option String) :
    availOf (reverse_points (newId s.transactions_db) adminId reason
        (approve_transaction (newId s.transactions_db)
          (earn_points { points := 100, source := src, source_id := sid,
                         description := d } u s).1).1).1 u
      = availOf s u + 100 ∧
    ((findTx (newId s.transactions_db)
        (reverse_points (newId s.transactions_db) adminId reason
            (approve_transaction (newId s.transactions_db)
              (earn_points { points := 100, source := src, source_id := sid,
                             description := d } u s).1).1).1.transactions_db).map
        Txn15.status = some "reversed") ∧
    ((findTx (newId s.transactions_db + 1)
        (reverse_points (newId s.transactions_db) adminId reason
            (approve_transaction (newId s.transactions_db)
              (earn_points { points := 100, source := src, source_id := sid,
                             description := d } u s).1).1).1.transactions_db).map
        Txn15.points = some (-100)) ∧
    ((findTx (newId s.transactions_db + 1)
        (reverse_points (newId s.transactions_db) adminId reason
            (approve_transaction (newId s.transactions_db)
              (earn_points { points := 100, source := src, source_id := sid,
                             description := d } u s).1).1).1.transactions_db).map
        Txn15.transaction_type = some "adjusted") ∧
    ((findTx (newId s.transactions_db + 1)
        (reverse_points (newId s.transactions_db) adminId reason
            (approve_transaction (newId s.transactions_db)
              (earn_points { points := 100, source := src, source_id := sid,
                             description := d } u s).1).1).1.transactions_db).map
        Txn15.status = some "completed") ∧
    ((findTx (newId s.transactions_db + 1)
        (reverse_points (newId s.transactions_db) adminId reason
            (approve_transaction (newId s.transactions_db)
              (earn_points { points := 100, source := src, source_id := sid,
                             description := d } u s).1).1).1.transactions_db).map
        Txn15.related_transaction_id = some (some (newId s.transactions_db))) ∧
    (reverse_points (newId s.transactions_db) adminId reason
        (approve_transaction (newId s.transactions_db)
          (earn_points { points := 100, source := src, source_id := sid,
                         description := d } u s).1).1).1.transactions_db.length
      = s.transactions_db.length + 2 := by
  simp only [earn_points]
  have hA : (approve_transaction (newId s.transactions_db)
      ({ points_db := setBal u
           { (s.points_db u).getD (zeroBalance u) with
             pending_points :=
               ((s.points_db u).getD (zeroBalance u)).pending_points + 100 }
           s.points_db,
         transactions_db := (newId s.transactions_db,
           { id := newId s.transactions_db, user_email := u,
             transaction_type := "earned", points := 100, source := src,
             source_id := sid,
             description := d.getD (src ++ "로 포인트 적립"),
             status := "pending", related_transaction_id := none })
           :: s.transactions_db } : State)).1
      = { points_db := setBal u
            { user_email := ((s.points_db u).getD (zeroBalance u)).user_email,
              total_points :=
                ((s.points_db u).getD (zeroBalance u)).total_points + 100,
              available_points :=
                ((s.points_db u).getD (zeroBalance u)).available_points + 100,
              pending_points :=
                ((s.points_db u).getD (zeroBalance u)).pending_points,
              used_points := ((s.points_db u).getD (zeroBalance u)).used_points,
              expired_points :=
                ((s.points_db u).getD (zeroBalance u)).expired_points }
            (setBal u
              { (s.points_db u).getD (zeroBalance u) with
                pending_points :=
                  ((s.points_db u).getD (zeroBalance u)).pending_points + 100 }
              s.points_db),
          transactions_db := updateTx (newId s.transactions_db)
            { id := newId s.transactions_db, user_email := u,
              transaction_type := "earned", points := 100, source := src,
              source_id := sid,
              description := d.getD (src ++ "로 포인트 적립"),
              status := "completed", related_transaction_id := none }
            ((newId s.transactions_db,
              { id := newId s.transactions_db, user_email := u,
                transaction_type := "earned", points := 100, source := src,
                source_id := sid,
                description := d.getD (src ++ "로 포인트 적립"),
                status := "pending", related_transaction_id := none })
              :: s.transactions_db) } := by
    simp only [approve_transaction]
    rw [findTx_cons_self]
    simp [setBal_same]
  rw [hA]
  have hfT1 : findTx (newId s.transactions_db)
      (updateTx (newId s.transactions_db)
        { id := newId s.transactions_db, user_email := u,
          transaction_type := "earned", points := 100, source := src,
          source_id := sid,
          description := d.getD (src ++ "로 포인트 적립"),
          status := "completed", related_transaction_id := none }
        ((newId s.transactions_db,
          ({ id := newId s.transactions_db, user_email := u,
             transaction_type := "earned", points := 100, source := src,
             source_id := sid,
             description := d.getD (src ++ "로 포인트 적립"),
             status := "pending", related_transaction_id := none } : Txn15))
          :: s.transactions_db))
      = some { id := newId s.transactions_db, user_email := u,
               transaction_type := "earned", points := 100, source := src,
               source_id := sid,
               description := d.getD (src ++ "로 포인트 적립"),
               status := "completed", related_transaction_id := none } :=
    findTx_updateTx_self _ (findTx_cons_self _ _ _)
  refine ⟨?_, ?_, ?_, ?_, ?_, ?_, ?_⟩ <;>
    simp only [reverse_points] <;>
    rw [hfT1, newId_update_cons]
  · rw [← getD_available s u]
    simp [availOf, setBal_same]
  · have hfT2 : findTx (newId s.transactions_db)
        (updateTx (newId s.transactions_db)
          { id := newId s.transactions_db, user_email := u,
            transaction_type := "earned", points := 100, source := src,
            source_id := sid,
            description := d.getD (src ++ "로 포인트 적립"),
            status := "reversed", related_transaction_id := none }
          (updateTx (newId s.transactions_db)
            { id := newId s.transactions_db, user_email := u,
              transaction_type := "earned", points := 100, source := src,
              source_id := sid,
              description := d.getD (src ++ "로 포인트 적립"),
              status := "completed", related_transaction_id := none }
            ((newId s.transactions_db,
              ({ id := newId s.transactions_db, user_email := u,
                 transaction_type := "earned", points := 100, source := src,
                 source_id := sid,
                 description := d.getD (src ++ "로 포인트 적립"),
                 status := "pending", related_transaction_id := none } : Txn15))
              :: s.transactions_db)))
        = some { id := newId s.transactions_db, user_email := u,
                 transaction_type := "earned", points := 100, source := src,
                 source_id := sid,
                 description := d.getD (src ++ "로 포인트 적립"),
                 status := "reversed", related_transaction_id := none } :=
      findTx_updateTx_self _ (findTx_updateTx_self _ (findTx_cons_self _ _ _))
    simp [findTx_cons_ne (Nat.succ_ne_self (newId s.transactions_db)), hfT2]
  · simp [findTx_cons_self]
  · simp [findTx_cons_self]
  · simp [findTx_cons_self]
  · simp [findTx_cons_self]
  · simp [length_updateTx]

end LinkPlace

namespace LinkPlace

/-- C8 counterexample — the claim as stated is false: starting from the
initial state, `earn 100`, `approve`, `reverse` leaves the admin user's
`available_points` at 1300, not at its pre-earn value 1200, because
`reverse` posts nothing to balances. -/
theorem earn_approve_reverse_counterexample :
    availOf initState "admin@linkplace.com" = 1200 ∧
    availOf (runOps [Op.earn "admin@linkplace.com"
        { points := 100, source := "review_write", source_id := 1,
          description := none },
      Op.approve 4, Op.reverse 4 1 none] initState) "admin@linkplace.com"
      = 1300 := by
  constructor <;> decide

end LinkPlace

namespace Phase1

theorem daysInMonth_le_31 (y m : Nat) : daysInMonth y m ≤ 31 := by
  unfold daysInMonth
  split_ifs <;> omega

/-- C3 — the snapshot invariant `balance_after = balance_before +
magnitude` for completed entries is broken by `reverse`: the reversal
entry is created already `completed` with placeholder snapshots
`balance_before = balance_after = 0` (the source comments them "Will be
set by service", and no such service exists in the repository), so for a
reversal of 100 points the invariant fails (0 ≠ 0 − 100). -/
theorem reverse_breaks_snapshot_invariant :
    completedSample.status = .completed ∧
    snapshotInvariant completedSample ∧
    (completedSample.reverse 9 none).2.status = .completed ∧
    (completedSample.reverse 9 none).2.points = -100 ∧
    (completedSample.reverse 9 none).2.balance_before = some 0 ∧
    (completedSample.reverse 9 none).2.balance_after = some 0 ∧
    ¬ snapshotInvariant (completedSample.reverse 9 none).2 := by
  refine ⟨rfl, rfl, rfl, rfl, rfl, rfl, ?_⟩
  unfold snapshotInvariant
  decide

/-- C4 counterexample — the claim as stated is false: `reverse` checks
no status, so reversing a *pending* entry does not fail with
`NotCompleted`; it performs the reversal anyway. -/
theorem reverse_no_status_check_counterexample :
    pendingSample.status = .pending ∧
    (pendingSample.reverse 1 (some "oops")).1.status = .reversed ∧
    (pendingSample.reverse 1 (some "oops")).2.status = .completed ∧
    (pendingSample.reverse 1 (some "oops")).2.points = -50 :=
  ⟨rfl, rfl, rfl, rfl⟩

/-- C4 (amended) — `reverse` succeeds for *every* entry regardless of
status (the source has no `NotCompleted` check): it returns the original
with status `reversed` and everything else untouched, together with a new
`completed` entry of kind `adjusted` whose magnitude is the negation of
the original's, linked back through `related_transaction_id`. -/
theorem reverse_spec (t : PointTransaction) (adminId : Nat)
    (reason : Option String) :
    (t.reverse adminId reason).1 = { t with status := .reversed } ∧
    (t.reverse adminId reason).2.transaction_type = .adjusted ∧
    (t.reverse adminId reason).2.points = -t.points ∧
    (t.reverse adminId reason).2.status = .completed ∧
    (t.reverse adminId reason).2.related_transaction_id = t.id :=
  ⟨rfl, rfl, rfl, rfl, rfl⟩

/-- C6 counterexample — the claim as stated is false: there is no
`InvalidAmount` check.  `create_earning_transaction` with `points = -5`
(and expiry disabled) returns an entry with `points = 5`, and
`create_spending_transaction` with `points = 0` returns an entry with
`points = 0`. -/
theorem create_invalid_amount_counterexample :
    ((PointTransaction.create_earning_transaction 1 (-5) .review "d" none 0
        none none ⟨2026, 10, 12⟩).map (fun t => t.points) = .ok 5) ∧
    (PointTransaction.create_spending_transaction 1 0 .purchase "d" none
        none).points = 0 :=
  ⟨rfl, rfl⟩

/-- C6 (amended) — the factories coerce instead of validating:
`create_spending_transaction` always produces a `spent` entry with
magnitude `-|points|`, and `create_earning_transaction` (when the expiry
computation is disabled, `expires_in_days ≤ 0`) always produces an
`earned` entry with magnitude `|points|`; no `InvalidAmount` failure
exists for `points ≤ 0`. -/
theorem create_coerces_abs (uid : Nat) (points : Int)
    (src : TransactionSource) (desc : String) (cid : Option Nat) (ed : Int)
    (rid rtyp : Option String) (now : Date) :
    (PointTransaction.create_spending_transaction uid points src desc rid
        rtyp).points = -(points.natAbs : Int) ∧
    (PointTransaction.create_spending_transaction uid points src desc rid
        rtyp).transaction_type = .spent ∧
    (ed ≤ 0 →
      (PointTransaction.create_earning_transaction uid points src desc cid
          ed rid rtyp now).map (fun t => (t.points, t.transaction_type))
        = .ok ((points.natAbs : Int), .earned)) := by
  refine ⟨rfl, rfl, fun h => ?_⟩
  unfold PointTransaction.create_earning_transaction
  rw [if_neg (by omega)]
  rfl

/-- C6 witness — the amended statement at `points = -7`,
`expires_in_days = 0`. -/
theorem create_coerces_abs_witness :
    (PointTransaction.create_spending_transaction 2 (-7) .purchase "w" none
        none).points = -(((-7 : Int)).natAbs : Int) ∧
    (PointTransaction.create_spending_transaction 2 (-7) .purchase "w" none
        none).transaction_type = .spent ∧
    ((0 : Int) ≤ 0 ∧
     (PointTransaction.create_earning_transaction 2 (-7) .purchase "w" none
         0 none none ⟨2026, 10, 12⟩).map (fun t => (t.points, t.transaction_type))
       = .ok ((((-7 : Int)).natAbs : Int), .earned)) :=
  ⟨(create_coerces_abs 2 (-7) .purchase "w" none 0 none none ⟨2026, 10, 12⟩).1,
   (create_coerces_abs 2 (-7) .purchase "w" none 0 none none ⟨2026, 10, 12⟩).2.1,
   le_refl 0,
   (create_coerces_abs 2 (-7) .purchase "w" none 0 none none
       ⟨2026, 10, 12⟩).2.2 (le_refl 0)⟩

/-- C9 — `set_expiry` computes
`utcnow().replace(day = utcnow().day + days_from_now)`, which raises
`ValueError` whenever the current day-of-month plus `days_from_now` is not
a valid day of the current month; since no month is longer than 31 days,
this happens for *every* `days_from_now ≥ 31`, in particular for
`create_earning_transaction`'s default `expires_in_days = 365`.  The same
`replace(day = day + 30)` failure affects `is_expiring_soon`. -/
theorem set_expiry_value_error :
    (∀ (now : Date) (t : PointTransaction) (d : Int),
      t.is_earning_transaction = true →
      ¬ (1 ≤ (now.day : Int) + d ∧
         (now.day : Int) + d ≤ (daysInMonth now.year now.month : Int)) →
      t.set_expiry now d = .error .valueError) ∧
    (∀ (now : Date) (t : PointTransaction) (d : Int),
      validDate now → t.is_earning_transaction = true → 31 ≤ d →
      t.set_expiry now d = .error .valueError) ∧
    (∀ (now : Date) (uid : Nat) (pts : Int) (src : TransactionSource)
       (desc : String) (cid : Option Nat) (rid rtyp : Option String),
      validDate now →
      PointTransaction.create_earning_transaction uid pts src desc cid 365
          rid rtyp now = .error .valueError) ∧
    (∀ (now : Date) (t : PointTransaction) (e : Date),
      t.expires_at = some e → t.is_expired = false →
      ¬ (1 ≤ (now.day : Int) + 30 ∧
         (now.day : Int) + 30 ≤ (daysInMonth now.year now.month : Int)) →
      t.is_expiring_soon now = .error .valueError) := by
  have hgen : ∀ (now : Date) (t : PointTransaction) (d : Int),
      t.is_earning_transaction = true →
      ¬ (1 ≤ (now.day : Int) + d ∧
         (now.day : Int) + d ≤ (daysInMonth now.year now.month : Int)) →
      t.set_expiry now d = .error .valueError := by
    intro now t d hearn hbad
    unfold PointTransaction.set_expiry
    rw [if_pos hearn]
    unfold replaceDay
    rw [if_neg hbad]
    rfl
  have hinvalid : ∀ (now : Date) (d : Int), validDate now → 31 ≤ d →
      ¬ (1 ≤ (now.day : Int) + d ∧
         (now.day : Int) + d ≤ (daysInMonth now.year now.month : Int)) := by
    intro now d hv hd
    obtain ⟨-, -, hday, -⟩ := hv
    have hm := daysInMonth_le_31 now.year now.month
    intro ⟨h1, h2⟩
    omega
  refine ⟨hgen, ?_, ?_, ?_⟩
  · intro now t d hv hearn hd
    exact hgen now t d hearn (hinvalid now d hv hd)
  · intro now uid pts src desc cid rid rtyp hv
    unfold PointTransaction.create_earning_transaction
    rw [if_pos (by omega : (365 : Int) > 0)]
    exact hgen now _ 365 rfl (hinvalid now 365 hv (by omega))
  · intro now t e hexp hnexp hbad
    simp only [PointTransaction.is_expiring_soon, hexp, hnexp, Bool.false_eq_true,
               if_false]
    unfold replaceDay
    rw [if_neg hbad]
    rfl

/-- C9 witness — on 2026-10-12 (a valid date with day 12):
`set_expiry 365` on an earning entry, `create_earning_transaction` with
the default 365-day expiry, and `is_expiring_soon` on an unexpired entry
all raise `ValueError`, since neither 12 + 365 nor 12 + 30 is a valid
October day. -/
theorem set_expiry_value_error_witness :
    validDate ⟨2026, 10, 12⟩ ∧
    completedSample.is_earning_transaction = true ∧
    completedSample.set_expiry ⟨2026, 10, 12⟩ 365 = .error .valueError ∧
    PointTransaction.create_earning_transaction 3 500 .review "reward" none
        365 none none ⟨2026, 10, 12⟩ = .error .valueError ∧
    expiringSample.is_expiring_soon ⟨2026, 10, 12⟩ = .error .valueError :=
  ⟨by decide, rfl,
   set_expiry_value_error.1 ⟨2026, 10, 12⟩ completedSample 365 rfl (by decide),
   set_expiry_value_error.2.2.1 ⟨2026, 10, 12⟩ 3 500 .review "reward" none
     none none (by decide),
   set_expiry_value_error.2.2.2 ⟨2026, 10, 12⟩ expiringSample ⟨2026, 10, 20⟩
     rfl rfl (by decide)⟩

end Phase1
